import Mathlib

/-!
Shallow embedding of the alert-decision pipeline of the vehicle
predictive-maintenance repository:

* `vehicle_alert_system.py` — alert classification
  (`VehicleAlertSystem._determine_alert_level`), the current/history alert
  store (`process_telemetry_data`, `get_current_alerts`, `snooze_alert`),
  and the priority ranking.
* `mobile_alert_system.py` — the notification gate
  (`MobileAlertSystem._should_send_alert`, `_check_quiet_hours`), the
  channel fan-out (`_send_notification`) and the per-component record of
  sent notifications (`_process_alerts`).

Probabilities are modelled as rationals, times as integer minutes, and the
hour-of-day as a natural number.  Python dictionaries are modelled as
association lists with Python's insertion-order update semantics.  Python's
object aliasing (the same alert dict being stored in `current_alerts` and
appended to `alert_history`) is modelled by a heap of allocated alerts
addressed by index.
-/

/-- Alert severity level, the values `'high' | 'medium' | 'low'` used by
both source files. -/
inductive AlertLevel where
  | low
  | medium
  | high
deriving DecidableEq

/-- Numeric severity of an optional level, for the ordering
None < Low < Medium < High used by the spec. -/
def levelRank : Option AlertLevel → ℕ
  | none => 0
  | some .low => 1
  | some .medium => 2
  | some .high => 3

/-- The `alert_thresholds` section of the alert configuration
(`VehicleAlertSystem._create_default_alert_config`). -/
structure AlertThresholds where
  high : ℚ
  medium : ℚ
  low : ℚ
deriving DecidableEq

/-- Built-in default thresholds `{high: 0.7, medium: 0.4, low: 0.2}` from
`_create_default_alert_config` (`mkRat n d` is the rational `n/d`; it is
used instead of `/` so that the kernel can evaluate comparisons). -/
def defaultThresholds : AlertThresholds :=
  { high := mkRat 7 10, medium := mkRat 2 5, low := mkRat 1 5 }

/-- Model of `VehicleAlertSystem._determine_alert_level`: compare the failure
probability against the high, then medium, then low threshold and return
the first level met or exceeded; `none` models Python's `None`. -/
def determine_alert_level (thresholds : AlertThresholds) (probability : ℚ) :
    Option AlertLevel :=
  if probability ≥ thresholds.high then some .high
  else if probability ≥ thresholds.medium then some .medium
  else if probability ≥ thresholds.low then some .low
  else none

/-- The `notification_settings` section of the mobile configuration
(`MobileAlertSystem._create_default_config`).  Cooldowns are in minutes;
quiet-hour boundaries are hours of the day. -/
structure NotificationSettings where
  enable_mobile_alerts : Bool
  high_priority_cooldown_minutes : ℤ
  medium_priority_cooldown_minutes : ℤ
  low_priority_cooldown_minutes : ℤ
  quiet_hours_start : ℕ
  quiet_hours_end : ℕ
  respect_quiet_hours : Bool
  override_quiet_hours_for_high_priority : Bool
deriving DecidableEq

/-- The `notification_services` toggles of the mobile configuration. -/
structure NotificationServices where
  use_firebase : Bool
  use_sms : Bool
  use_email : Bool
deriving DecidableEq

/-- Built-in default `notification_settings` from
`MobileAlertSystem._create_default_config`. -/
def defaultNotificationSettings : NotificationSettings :=
  { enable_mobile_alerts := true
    high_priority_cooldown_minutes := 30
    medium_priority_cooldown_minutes := 120
    low_priority_cooldown_minutes := 360
    quiet_hours_start := 22
    quiet_hours_end := 7
    respect_quiet_hours := true
    override_quiet_hours_for_high_priority := true }

/-- The rendered notification/alert message.  The Python code renders a
string deterministically from the urgency phrase of the level, the
formatted component name, the probability as a percentage and a
level-keyed call to action (`_generate_alert_message`); every claim treats
the message opaquely, so it is modelled by the data that determines it. -/
structure AlertMessage where
  component : String
  level : AlertLevel
  probability : ℚ
deriving DecidableEq

/-- An entry of `MobileAlertSystem.alert_history`: the per-component record
of the last sent notification, written by `_process_alerts`. -/
structure NotificationRecord where
  level : AlertLevel
  sent_time : ℤ
  message : AlertMessage
deriving DecidableEq

/-- Model of `MobileAlertSystem._check_quiet_hours`: true when the current hour lies
in the quiet window, which wraps across midnight when start > end; always
false when `respect_quiet_hours` is disabled. -/
def check_quiet_hours (s : NotificationSettings) (current_hour : ℕ) : Bool :=
  if ¬s.respect_quiet_hours then false
  else if s.quiet_hours_start > s.quiet_hours_end then
    decide (current_hour ≥ s.quiet_hours_start ∨ current_hour < s.quiet_hours_end)
  else
    decide (current_hour ≥ s.quiet_hours_start ∧ current_hour < s.quiet_hours_end)

/-- Model of `MobileAlertSystem._should_send_alert`: quiet-hours suppression first
(with the high-priority override), then escalation bypass and the
per-level cooldown when a record exists, and unconditional admission when
no record exists. -/
def should_send_alert (s : NotificationSettings)
    (record : Option NotificationRecord) (level : AlertLevel)
    (current_time : ℤ) (in_quiet_hours : Bool) : Bool :=
  if in_quiet_hours ∧ ¬(level = .high ∧ s.override_quiet_hours_for_high_priority) then
    false
  else
    match record with
    | some last_alert =>
      if (level = .high ∧ last_alert.level ≠ .high) ∨
          (level = .medium ∧ last_alert.level = .low) then
        true
      else
        let cooldown_minutes :=
          match level with
          | .high => s.high_priority_cooldown_minutes
          | .medium => s.medium_priority_cooldown_minutes
          | .low => s.low_priority_cooldown_minutes
        decide (current_time ≥ last_alert.sent_time + cooldown_minutes)
    | none => true

/-- The per-level cooldown chosen by `_should_send_alert` (high / medium /
else low). -/
def cooldown_minutes_for (s : NotificationSettings) : AlertLevel → ℤ
  | .high => s.high_priority_cooldown_minutes
  | .medium => s.medium_priority_cooldown_minutes
  | .low => s.low_priority_cooldown_minutes

/-- A notification channel, in the fixed dispatch order of
`_send_notification`: push (Firebase), then SMS, then email. -/
inductive Channel where
  | push
  | sms
  | email
deriving DecidableEq

/-- Outcome each channel's send would return if attempted
(`_send_firebase_notification` / `_send_sms_notification` /
`_send_email_notification` return a success Bool). -/
structure SendOutcome where
  firebase_ok : Bool
  sms_ok : Bool
  email_ok : Bool
deriving DecidableEq

/-- Model of `MobileAlertSystem._send_notification`: if any service is enabled,
attempt Firebase when enabled and initialized, then SMS and email — but
Python's `success = success or send(...)` short-circuits, so a later
channel is only attempted while `success` is still false.  Returns the
list of channels actually attempted and the final `success` flag (the
Python function itself returns `None`; the flag is only logged). -/
def send_notification (svc : NotificationServices)
    (firebase_initialized : Bool) (out : SendOutcome) : List Channel × Bool :=
  let any_service_enabled :=
    (svc.use_firebase && firebase_initialized) || svc.use_sms || svc.use_email
  if any_service_enabled then
    let fb_attempted := svc.use_firebase && firebase_initialized
    let success1 := fb_attempted && out.firebase_ok
    let sms_attempted := svc.use_sms && !success1
    let success2 := success1 || (sms_attempted && out.sms_ok)
    let email_attempted := svc.use_email && !success2
    let success3 := success2 || (email_attempted && out.email_ok)
    ((if fb_attempted then [Channel.push] else []) ++
      (if sms_attempted then [Channel.sms] else []) ++
      (if email_attempted then [Channel.email] else []),
      success3)
  else ([], false)

/-- Association-list lookup, modelling Python `d[k]` / `k in d`. -/
def dictGet? {α : Type} : List (String × α) → String → Option α
  | [], _ => none
  | (k', v) :: rest, k => if k' = k then some v else dictGet? rest k

/-- Association-list update with Python dict semantics: an existing key is
overwritten in place (keeping its insertion position), a new key is
appended. -/
def dictSet {α : Type} : List (String × α) → String → α → List (String × α)
  | [], k, v => [(k, v)]
  | (k', v') :: rest, k, v =>
    if k' = k then (k, v) :: rest else (k', v') :: dictSet rest k v

/-- Association-list deletion, modelling Python `del d[k]` (removes the
entry with key `k`; keys are unique in a Python dict). -/
def dictDel {α : Type} : List (String × α) → String → List (String × α)
  | [], _ => []
  | (k', v') :: rest, k =>
    if k' = k then rest else (k', v') :: dictDel rest k

/-- A mobile-side view of one alert dict as consumed by
`_process_alerts` (fields `component`, `alert_level`, `message`). -/
structure MobileAlert where
  component : String
  alert_level : AlertLevel
  message : AlertMessage
deriving DecidableEq

/-- The body of the `_process_alerts` loop for one alert: compute the
quiet-hours flag from the current time, ask `_should_send_alert`, and if
admitted call `_send_notification` (whose result is discarded — the Python
call's return value is `None` and is not consulted) and then
unconditionally overwrite the component's `alert_history` record with
`{level, sent_time := now, message}`. -/
def process_alert (s : NotificationSettings) (svc : NotificationServices)
    (firebase_initialized : Bool)
    (alert_history : List (String × NotificationRecord)) (alert : MobileAlert)
    (current_time : ℤ) (current_hour : ℕ) (out : SendOutcome) :
    List (String × NotificationRecord) :=
  let in_quiet_hours := check_quiet_hours s current_hour
  if should_send_alert s (dictGet? alert_history alert.component)
      alert.alert_level current_time in_quiet_hours then
    let _sent := send_notification svc firebase_initialized out
    dictSet alert_history alert.component
      { level := alert.alert_level, sent_time := current_time,
        message := alert.message }
  else alert_history

/-- Model of `MobileAlertSystem._process_alerts` over a list of current alerts (the
quiet-hours flag is computed once from the same current time for the whole
batch, as in the Python loop). -/
def process_alerts (s : NotificationSettings) (svc : NotificationServices)
    (firebase_initialized : Bool)
    (alert_history : List (String × NotificationRecord))
    (alerts : List MobileAlert) (current_time : ℤ) (current_hour : ℕ)
    (out : SendOutcome) : List (String × NotificationRecord) :=
  alerts.foldl
    (fun h a => process_alert s svc firebase_initialized h a current_time current_hour out)
    alert_history

/-- Modelled from the spec: membership of an hour in the half-open quiet
window `[quiet_start, quiet_end)`, wrapping across midnight when
`quiet_start > quiet_end`.  Used to compare `_check_quiet_hours` against
the spec's description. -/
def inQuietWindow (quiet_start quiet_end hour : ℕ) : Prop :=
  if quiet_start > quiet_end then quiet_start ≤ hour ∨ hour < quiet_end
  else quiet_start ≤ hour ∧ hour < quiet_end

/-- One alert dict created by `VehicleAlertSystem.process_telemetry_data`
(fields `component`, `probability`, `alert_level`, `priority`,
`timestamp`, `message`, plus the optional `snoozed_until` added later by
`snooze_alert`). -/
structure VAlert where
  component : String
  probability : ℚ
  alert_level : AlertLevel
  priority : ℤ
  timestamp : ℤ
  message : AlertMessage
  snoozed_until : Option ℤ := none
deriving DecidableEq

instance : Inhabited VAlert :=
  ⟨{ component := "", probability := 0, alert_level := .low, priority := 1,
     timestamp := 0, message := ⟨"", .low, 0⟩, snoozed_until := none }⟩

/-- The `component_priorities` section of the default alert configuration. -/
def defaultComponentPriorities : List (String × ℤ) :=
  [("engine", 5), ("brakes", 5), ("transmission", 4), ("electrical", 3),
   ("battery", 2)]

/-- The alert configuration of `VehicleAlertSystem`: thresholds, component
priorities, and the snooze duration from `notification_settings`. -/
structure AlertConfig where
  alert_thresholds : AlertThresholds
  component_priorities : List (String × ℤ)
  snooze_duration_minutes : ℤ

/-- Built-in default alert configuration
(`VehicleAlertSystem._create_default_alert_config`). -/
def defaultAlertConfig : AlertConfig :=
  { alert_thresholds := defaultThresholds
    component_priorities := defaultComponentPriorities
    snooze_duration_minutes := 60 }

/-- State of `VehicleAlertSystem`.  Python stores alert dicts by
reference — `process_telemetry_data` puts the *same* object into
`current_alerts[component]` and `alert_history` — so the model keeps a
heap of allocated alert objects addressed by allocation index;
`current_alerts` maps components to heap indices and `alert_history`
lists heap indices in append order. -/
structure AlertStore where
  heap : List VAlert
  current_alerts : List (String × ℕ)
  alert_history : List ℕ
deriving DecidableEq

/-- The initial empty store (`current_alerts = {}`, `alert_history = []`). -/
def emptyAlertStore : AlertStore := ⟨[], [], []⟩

/-- One iteration of the `process_telemetry_data` loop for one component,
given its predicted failure probability: if a level qualifies, a new alert
object is allocated and stored both in `current_alerts` (replacing any
previous entry for the component) and at the end of `alert_history` — one
shared object; otherwise the component's current alert, if any, is
removed. -/
def process_component (cfg : AlertConfig) (st : AlertStore)
    (component : String) (failure_prob : ℚ) (current_time : ℤ) : AlertStore :=
  match determine_alert_level cfg.alert_thresholds failure_prob with
  | some alert_level =>
    let alert : VAlert :=
      { component := component
        probability := failure_prob
        alert_level := alert_level
        priority := (dictGet? cfg.component_priorities component).getD 1
        timestamp := current_time
        message := ⟨component, alert_level, failure_prob⟩
        snoozed_until := none }
    { heap := st.heap ++ [alert]
      current_alerts := dictSet st.current_alerts component st.heap.length
      alert_history := st.alert_history ++ [st.heap.length] }
  | none =>
    if (dictGet? st.current_alerts component).isSome then
      { st with current_alerts := dictDel st.current_alerts component }
    else st

/-- Model of `process_telemetry_data` over the per-component failure probabilities
of one telemetry batch. -/
def process_telemetry_data (cfg : AlertConfig) (st : AlertStore)
    (predictions : List (String × ℚ)) (current_time : ℤ) : AlertStore :=
  predictions.foldl (fun s p => process_component cfg s p.1 p.2 current_time) st

/-- The sort key used by both `process_telemetry_data` and
`get_current_alerts`:
`sorted(alerts, key=lambda x: (-x['priority'], -x['probability']))`,
i.e. `a` precedes `b` when `a` has higher priority, or equal priority and
probability at least as high. -/
def rankLE (a b : VAlert) : Bool :=
  decide (b.priority < a.priority ∨
    (a.priority = b.priority ∧ b.probability ≤ a.probability))

/-- Python's `sorted` — a stable sort — with the descending
priority-then-probability key; `List.mergeSort` is stable for the same
notion of key order, hence models it exactly. -/
def rank (alerts : List VAlert) : List VAlert := alerts.mergeSort rankLE

/-- The alert objects currently referenced by `current_alerts`
(`list(self.current_alerts.values())`), in dict insertion order. -/
def currentAlertValues (st : AlertStore) : List VAlert :=
  st.current_alerts.map (fun p => st.heap.getD p.2 default)

/-- Model of `VehicleAlertSystem.get_current_alerts`. -/
def get_current_alerts (st : AlertStore) : List VAlert :=
  rank (currentAlertValues st)

/-- The alert objects referenced by `alert_history`, in recording order. -/
def alertHistoryValues (st : AlertStore) : List VAlert :=
  st.alert_history.map (fun i => st.heap.getD i default)

/-- Model of `VehicleAlertSystem.snooze_alert`: if the component has a current
alert, set `snoozed_until = now + snooze_duration` on that (shared) alert
object and return true; otherwise return false. -/
def snooze_alert (cfg : AlertConfig) (st : AlertStore) (component : String)
    (current_time : ℤ) : AlertStore × Bool :=
  match dictGet? st.current_alerts component with
  | some idx =>
    ({ st with
        heap := st.heap.set idx
          { st.heap.getD idx default with
            snoozed_until :=
              some (current_time + cfg.snooze_duration_minutes) } },
      true)
  | none => (st, false)

/-- Well-formedness of the store: each component has at most one current
alert (the keys of `current_alerts` are distinct), and every current entry
points to an allocated alert object carrying that component name. -/
def StoreWF (st : AlertStore) : Prop :=
  (st.current_alerts.map Prod.fst).Nodup ∧
  ∀ p ∈ st.current_alerts,
    p.2 < st.heap.length ∧ (st.heap.getD p.2 default).component = p.1

/-- The alert `(engine, priority 5, probability 0.6)` from the spec's
ranking example (`mkRat 3 5 = 0.6`). -/
def engineExampleAlert : VAlert :=
  { component := "engine", probability := mkRat 3 5, alert_level := .medium,
    priority := 5, timestamp := 0,
    message := ⟨"engine", .medium, mkRat 3 5⟩ }

/-- The alert `(brakes, priority 5, probability 0.8)` from the spec's
ranking example. -/
def brakesExampleAlert : VAlert :=
  { component := "brakes", probability := mkRat 4 5, alert_level := .high,
    priority := 5, timestamp := 0,
    message := ⟨"brakes", .high, mkRat 4 5⟩ }

/-- The alert `(battery, priority 2, probability 0.9)` from the spec's
ranking example. -/
def batteryExampleAlert : VAlert :=
  { component := "battery", probability := mkRat 9 10, alert_level := .high,
    priority := 2, timestamp := 0,
    message := ⟨"battery", .high, mkRat 9 10⟩ }

/-- A second alert with the same ranking key (priority 5, probability
0.6) as `engineExampleAlert`, used to exhibit stability on exact ties. -/
def engineTwinAlert : VAlert :=
  { component := "engine2", probability := mkRat 3 5, alert_level := .medium,
    priority := 5, timestamp := 0,
    message := ⟨"engine2", .medium, mkRat 3 5⟩ }

/-- C5: `classify` returns the first level (checked in descending order
high, medium, low) whose threshold is met or exceeded, and no alert below
the lowest check; with the default thresholds, `classify 0.75 = High`,
`classify 0.5 = Medium`, `classify 0.25 = Low`, `classify 0.1 = None`. -/
theorem claim_C5_classify_first_match_and_defaults :
    (∀ (th : AlertThresholds) (p : ℚ),
      (determine_alert_level th p = some .high ↔ th.high ≤ p) ∧
      (determine_alert_level th p = some .medium ↔ p < th.high ∧ th.medium ≤ p) ∧
      (determine_alert_level th p = some .low ↔
        p < th.high ∧ p < th.medium ∧ th.low ≤ p) ∧
      (determine_alert_level th p = none ↔
        p < th.high ∧ p < th.medium ∧ p < th.low)) ∧
    determine_alert_level defaultThresholds (mkRat 3 4) = some .high ∧
    determine_alert_level defaultThresholds (mkRat 1 2) = some .medium ∧
    determine_alert_level defaultThresholds (mkRat 1 4) = some .low ∧
    determine_alert_level defaultThresholds (mkRat 1 10) = none := by
  refine ⟨fun th p => ?_, by decide, by decide, by decide, by decide⟩
  unfold determine_alert_level
  split_ifs with h1 h2 h3 <;> simp_all

/-- C10: the classified level is monotone in the probability for any fixed
threshold configuration, under the ordering None < Low < Medium < High. -/
theorem claim_C10_classify_monotone (th : AlertThresholds) (p1 p2 : ℚ)
    (h : p2 ≤ p1) :
    levelRank (determine_alert_level th p2) ≤
      levelRank (determine_alert_level th p1) := by
  unfold determine_alert_level
  split_ifs <;> simp [levelRank] <;> linarith

/-- Witness for C10 at concrete probabilities 0.1 ≤ 0.9 with the default
thresholds. -/
theorem claim_C10_classify_monotone_witness :
    mkRat 1 10 ≤ mkRat 9 10 ∧
    levelRank (determine_alert_level defaultThresholds (mkRat 1 10)) ≤
      levelRank (determine_alert_level defaultThresholds (mkRat 9 10)) :=
  ⟨by decide,
    claim_C10_classify_monotone defaultThresholds (mkRat 9 10) (mkRat 1 10) (by decide)⟩

/-- Looking up a key just written by `dictSet` yields the written value. -/
theorem dictGet?_dictSet_same {α : Type} (m : List (String × α)) (k : String)
    (v : α) : dictGet? (dictSet m k v) k = some v := by
  induction m with
  | nil => simp [dictSet, dictGet?]
  | cons p rest ih =>
    by_cases h : p.1 = k
    · simp [dictSet, dictGet?, h]
    · simpa [dictSet, dictGet?, h] using ih

/-- C2 as stated is false: with Firebase and SMS both enabled and the
Firebase send succeeding, SMS is enabled but never attempted (Python's
`success = success or send(...)` short-circuits). -/
theorem claim_C2_counterexample :
    (NotificationServices.mk true true false).use_sms = true ∧
    Channel.sms ∉
      (send_notification ⟨true, true, false⟩ true ⟨true, true, true⟩).1 ∧
    (send_notification ⟨true, true, false⟩ true ⟨true, true, true⟩).1 =
      [Channel.push] := by
  decide

/-- C2 amended: enabled channels are considered in the fixed order push,
SMS, email, but a later channel is attempted only while no earlier attempt
has succeeded; overall success holds iff some attempted channel succeeds,
so one channel's failure never prevents a later attempt. -/
theorem claim_C2_channel_fanout :
    ∀ (f s e fi a b c : Bool),
      List.Sublist (send_notification ⟨f, s, e⟩ fi ⟨a, b, c⟩).1
        [Channel.push, Channel.sms, Channel.email] ∧
      ((send_notification ⟨f, s, e⟩ fi ⟨a, b, c⟩).2 = true ↔
        (Channel.push ∈ (send_notification ⟨f, s, e⟩ fi ⟨a, b, c⟩).1 ∧ a = true) ∨
        (Channel.sms ∈ (send_notification ⟨f, s, e⟩ fi ⟨a, b, c⟩).1 ∧ b = true) ∨
        (Channel.email ∈ (send_notification ⟨f, s, e⟩ fi ⟨a, b, c⟩).1 ∧ c = true)) ∧
      (Channel.push ∈ (send_notification ⟨f, s, e⟩ fi ⟨a, b, c⟩).1 ↔
        f = true ∧ fi = true) ∧
      (Channel.sms ∈ (send_notification ⟨f, s, e⟩ fi ⟨a, b, c⟩).1 ↔
        s = true ∧ ¬(f = true ∧ fi = true ∧ a = true)) ∧
      (Channel.email ∈ (send_notification ⟨f, s, e⟩ fi ⟨a, b, c⟩).1 ↔
        e = true ∧ ¬((f = true ∧ fi = true ∧ a = true) ∨
          (s = true ∧ ¬(f = true ∧ fi = true ∧ a = true) ∧ b = true))) := by
  intro f s e fi a b c
  cases f <;> cases s <;> cases e <;> cases fi <;> cases a <;> cases b <;>
    cases c <;> decide

/-- C1 as stated is false: with only SMS enabled and the SMS send failing,
`_send_notification` reports no success, yet `_process_alerts` still
overwrites the component's NotificationRecord (the send result is never
consulted). -/
theorem claim_C1_counterexample :
    (send_notification ⟨false, true, false⟩ false ⟨false, false, false⟩).2 = false ∧
    process_alert defaultNotificationSettings ⟨false, true, false⟩ false []
        ⟨"engine", .high, ⟨"engine", .high, 1⟩⟩ 0 12 ⟨false, false, false⟩ =
      [("engine", ⟨.high, 0, ⟨"engine", .high, 1⟩⟩)] := by
  constructor
  · decide
  · simp [process_alert, should_send_alert, check_quiet_hours,
      defaultNotificationSettings, dictGet?, dictSet, send_notification]

/-- C1 amended: the NotificationRecord is rewritten to
`{level, now, message}` exactly when `_should_send_alert` admits the
alert, irrespective of whether any channel send succeeds (the result of
`_send_notification` is discarded); when the alert is not admitted the
record map is unchanged. -/
theorem claim_C1_record_update (s : NotificationSettings)
    (svc : NotificationServices) (fi : Bool)
    (hist : List (String × NotificationRecord)) (a : MobileAlert) (t : ℤ)
    (h : ℕ) (out out' : SendOutcome) :
    process_alert s svc fi hist a t h out = process_alert s svc fi hist a t h out' ∧
    (should_send_alert s (dictGet? hist a.component) a.alert_level t
        (check_quiet_hours s h) = true →
      dictGet? (process_alert s svc fi hist a t h out) a.component =
        some { level := a.alert_level, sent_time := t, message := a.message }) ∧
    (should_send_alert s (dictGet? hist a.component) a.alert_level t
        (check_quiet_hours s h) = false →
      process_alert s svc fi hist a t h out = hist) := by
  cases hss : should_send_alert s (dictGet? hist a.component) a.alert_level t
      (check_quiet_hours s h) with
  | true => simp [process_alert, hss, dictGet?_dictSet_same]
  | false => simp [process_alert, hss]

/-- Witness for C1 amended: an admitted alert (no record, not in quiet
hours) writes the record even though every channel send fails. -/
theorem claim_C1_record_update_witness :
    should_send_alert defaultNotificationSettings
        (dictGet? [] "engine") AlertLevel.high 0
        (check_quiet_hours defaultNotificationSettings 12) = true ∧
    dictGet?
        (process_alert defaultNotificationSettings ⟨false, true, false⟩ false []
          ⟨"engine", .high, ⟨"engine", .high, 1⟩⟩ 0 12 ⟨false, false, false⟩)
        "engine" =
      some { level := AlertLevel.high, sent_time := 0,
             message := ⟨"engine", .high, 1⟩ } := by
  refine ⟨by decide, ?_⟩
  exact (claim_C1_record_update defaultNotificationSettings ⟨false, true, false⟩
    false [] ⟨"engine", .high, ⟨"engine", .high, 1⟩⟩ 0 12 ⟨false, false, false⟩
    ⟨false, false, false⟩).2.1 (by decide)

/-- C3 as stated is false: a Low alert for a component with no prior
record, arriving during quiet hours (hour 23 with the default settings),
is suppressed — the quiet-hours check runs before the bootstrap case. -/
theorem claim_C3_counterexample :
    check_quiet_hours defaultNotificationSettings 23 = true ∧
    should_send_alert defaultNotificationSettings none AlertLevel.low 0 true =
      false := by
  decide

/-- C3 amended: with no prior NotificationRecord, `_should_send_alert`
returns true whenever the alert is not suppressed by quiet hours (either
not in quiet hours, or High with the override enabled), regardless of
level, time and cooldown configuration. -/
theorem claim_C3_bootstrap (s : NotificationSettings) (level : AlertLevel)
    (t : ℤ) (iq : Bool)
    (hpass : iq = false ∨
      (level = .high ∧ s.override_quiet_hours_for_high_priority = true)) :
    should_send_alert s none level t iq = true := by
  unfold should_send_alert
  rcases hpass with h | ⟨h1, h2⟩
  · simp [h]
  · subst h1
    simp [h2]

/-- Witness for C3 amended at a concrete input (no record, not in quiet
hours, Low level, default settings). -/
theorem claim_C3_bootstrap_witness :
    (false = false ∨
      (AlertLevel.low = .high ∧
        defaultNotificationSettings.override_quiet_hours_for_high_priority = true)) ∧
    should_send_alert defaultNotificationSettings none AlertLevel.low 0 false =
      true :=
  ⟨Or.inl rfl,
    claim_C3_bootstrap defaultNotificationSettings AlertLevel.low 0 false (Or.inl rfl)⟩

/-- C6: for an alert with a prior record that is not suppressed by quiet
hours, the gate admits it iff the new level strictly exceeds the last-sent
level (ordering Low < Medium < High), or the per-level cooldown has
expired (`now ≥ last_sent_time + cooldown(level)`); concretely, with the
default 120-minute medium cooldown, a Medium alert sent at `t0` is
suppressed at `t0+60` and admitted at `t0+121`. -/
theorem claim_C6_escalation_and_cooldown :
    (∀ (s : NotificationSettings) (last : NotificationRecord)
        (level : AlertLevel) (t : ℤ) (iq : Bool),
      (iq = false ∨
        (level = .high ∧ s.override_quiet_hours_for_high_priority = true)) →
      should_send_alert s (some last) level t iq =
        (decide (levelRank (some last.level) < levelRank (some level)) ||
          decide (t ≥ last.sent_time + cooldown_minutes_for s level))) ∧
    (∀ t0 : ℤ,
      should_send_alert defaultNotificationSettings
          (some ⟨.medium, t0, ⟨"engine", .medium, 1⟩⟩) .medium (t0 + 60)
          false = false ∧
      should_send_alert defaultNotificationSettings
          (some ⟨.medium, t0, ⟨"engine", .medium, 1⟩⟩) .medium (t0 + 121)
          false = true) := by
  constructor
  · intro s last level t iq hpass
    have hmain : should_send_alert s (some last) level t iq =
        (if (level = .high ∧ last.level ≠ .high) ∨
            (level = .medium ∧ last.level = .low) then true
          else decide (t ≥ last.sent_time + cooldown_minutes_for s level)) := by
      rcases hpass with h | ⟨h1, h2⟩
      · subst h
        simp [should_send_alert, cooldown_minutes_for]
      · subst h1
        simp [should_send_alert, h2, cooldown_minutes_for]
    rw [hmain]
    cases level <;> cases hl : last.level <;>
      simp [hl, levelRank, decide_eq_true_eq]
  · intro t0
    constructor <;>
      simp [should_send_alert, defaultNotificationSettings]

/-- Witness for C6 at a concrete input: prior Low record, new High alert,
zero elapsed time, not in quiet hours — admitted by escalation. -/
theorem claim_C6_escalation_and_cooldown_witness :
    ((false : Bool) = false ∨
      (AlertLevel.high = .high ∧
        defaultNotificationSettings.override_quiet_hours_for_high_priority = true)) ∧
    should_send_alert defaultNotificationSettings
        (some ⟨.low, 0, ⟨"engine", .low, 1⟩⟩) .high 0 false =
      (decide (levelRank (some AlertLevel.low) < levelRank (some AlertLevel.high)) ||
        decide ((0 : ℤ) ≥ 0 + cooldown_minutes_for defaultNotificationSettings .high)) :=
  ⟨Or.inl rfl,
    claim_C6_escalation_and_cooldown.1 defaultNotificationSettings
      ⟨.low, 0, ⟨"engine", .low, 1⟩⟩ .high 0 false (Or.inl rfl)⟩

/-- C7: with quiet hours respected, `_check_quiet_hours` decides exactly
the half-open wrapping window `[quiet_start, quiet_end)` (with the default
22–7 window, hours 23 and 3 are inside and hour 10 is not); during quiet
hours every alert is suppressed unless it is High with the override
enabled, in which case the outcome is the same as outside quiet hours
(processing proceeds to the record/cooldown check). -/
theorem claim_C7_quiet_hours :
    (∀ (s : NotificationSettings) (hour : ℕ), s.respect_quiet_hours = true →
      (check_quiet_hours s hour = true ↔
        inQuietWindow s.quiet_hours_start s.quiet_hours_end hour)) ∧
    check_quiet_hours defaultNotificationSettings 23 = true ∧
    check_quiet_hours defaultNotificationSettings 3 = true ∧
    check_quiet_hours defaultNotificationSettings 10 = false ∧
    (∀ (s : NotificationSettings) (record : Option NotificationRecord)
        (level : AlertLevel) (t : ℤ),
      ¬(level = AlertLevel.high ∧
          s.override_quiet_hours_for_high_priority = true) →
      should_send_alert s record level t true = false) ∧
    (∀ (s : NotificationSettings) (record : Option NotificationRecord)
        (t : ℤ), s.override_quiet_hours_for_high_priority = true →
      should_send_alert s record AlertLevel.high t true =
        should_send_alert s record AlertLevel.high t false) := by
  refine ⟨?_, by decide, by decide, by decide, ?_, ?_⟩
  · intro s hour hr
    unfold check_quiet_hours inQuietWindow
    split_ifs with h1 <;> simp_all
  · intro s record level t hno
    simp [should_send_alert, hno]
  · intro s record t hov
    simp [should_send_alert, hov]

/-- Witness for C7 at concrete inputs: hour 23 is in the default window,
and a Low alert during quiet hours is suppressed. -/
theorem claim_C7_quiet_hours_witness :
    (defaultNotificationSettings.respect_quiet_hours = true ∧
      (check_quiet_hours defaultNotificationSettings 23 = true ↔
        inQuietWindow 22 7 23)) ∧
    (¬(AlertLevel.low = AlertLevel.high ∧
        defaultNotificationSettings.override_quiet_hours_for_high_priority = true) ∧
      should_send_alert defaultNotificationSettings none AlertLevel.low 0 true =
        false) :=
  ⟨⟨rfl, claim_C7_quiet_hours.1 defaultNotificationSettings 23 rfl⟩,
    ⟨by decide,
      claim_C7_quiet_hours.2.2.2.2.1 defaultNotificationSettings none
        AlertLevel.low 0 (by decide)⟩⟩

/-- C4: the code violates it.  `process_telemetry_data` appends to
`alert_history` the *same* dict object it stores in `current_alerts` (no
copy), and `snooze_alert` mutates that object in place, so snoozing adds a
`snoozed_until` field to the already-recorded history entry: processing an
engine alert (probability 1, High) at t = 0 and then snoozing `engine` at
t = 10 with the default 60-minute snooze turns the history entry's
`snoozed_until` from `none` into `some 70`. -/
theorem claim_C4_history_entry_mutated_by_snooze :
    (process_component defaultAlertConfig emptyAlertStore "engine" 1 0).current_alerts
        = [("engine", 0)] ∧
    (process_component defaultAlertConfig emptyAlertStore "engine" 1 0).alert_history
        = [0] ∧
    (alertHistoryValues
          (process_component defaultAlertConfig emptyAlertStore "engine" 1 0)).map
        (fun a => a.snoozed_until) = [none] ∧
    (snooze_alert defaultAlertConfig
        (process_component defaultAlertConfig emptyAlertStore "engine" 1 0)
        "engine" 10).2 = true ∧
    (alertHistoryValues
          (snooze_alert defaultAlertConfig
            (process_component defaultAlertConfig emptyAlertStore "engine" 1 0)
            "engine" 10).1).map
        (fun a => a.snoozed_until) = [some 70] := by
  decide

/-- Writing with `dictSet` leaves the key list unchanged when the key is present, and
appends the key otherwise. -/
theorem dictSet_map_fst {α : Type} (m : List (String × α)) (k : String)
    (v : α) :
    (dictSet m k v).map Prod.fst =
      if k ∈ m.map Prod.fst then m.map Prod.fst
      else m.map Prod.fst ++ [k] := by
  induction m with
  | nil => simp [dictSet]
  | cons p rest ih =>
    by_cases h : p.1 = k
    · simp [dictSet, h]
    · simp only [dictSet, if_neg h, List.map_cons, ih]
      by_cases hk : k ∈ rest.map Prod.fst <;>
        simp [hk, Ne.symm h]

/-- Membership in `dictSet`: an element is the new pair or an old one. -/
theorem mem_dictSet {α : Type} {m : List (String × α)} {k : String} {v : α}
    {q : String × α} (h : q ∈ dictSet m k v) : q = (k, v) ∨ q ∈ m := by
  induction m with
  | nil => simpa [dictSet] using h
  | cons p rest ih =>
    by_cases hp : p.1 = k
    · rcases (by simpa [dictSet, hp] using h : q = (k, v) ∨ q ∈ rest) with h' | h'
      · exact Or.inl h'
      · exact Or.inr (List.mem_cons_of_mem _ h')
    · rcases (by simpa [dictSet, hp] using h : q = p ∨ q ∈ dictSet rest k v) with h' | h'
      · exact Or.inr (h' ▸ List.mem_cons_self _ _)
      · rcases ih h' with h'' | h''
        · exact Or.inl h''
        · exact Or.inr (List.mem_cons_of_mem _ h'')

/-- The keys of `dictDel` form a sublist of the original keys. -/
theorem dictDel_map_fst_sublist {α : Type} (m : List (String × α))
    (k : String) :
    List.Sublist ((dictDel m k).map Prod.fst) (m.map Prod.fst) := by
  induction m with
  | nil => simp [dictDel]
  | cons p rest ih =>
    by_cases h : p.1 = k
    · simp only [dictDel, if_pos h]
      exact List.sublist_cons_self _ _
    · simp only [dictDel, if_neg h, List.map_cons]
      exact List.Sublist.cons₂ p.1 ih

/-- Membership in `dictDel` implies membership in the original map. -/
theorem mem_dictDel {α : Type} {m : List (String × α)} {k : String}
    {q : String × α} (h : q ∈ dictDel m k) : q ∈ m := by
  induction m with
  | nil => simp [dictDel] at h
  | cons p rest ih =>
    by_cases hp : p.1 = k
    · exact List.mem_cons_of_mem _ (by simpa [dictDel, hp] using h)
    · rcases (by simpa [dictDel, hp] using h : q = p ∨ q ∈ dictDel rest k) with h' | h'
      · exact h' ▸ List.mem_cons_self _ _
      · exact List.mem_cons_of_mem _ (ih h')

/-- A lookup misses exactly when the key is absent. -/
theorem dictGet?_eq_none {α : Type} (m : List (String × α)) (k : String) :
    dictGet? m k = none ↔ k ∉ m.map Prod.fst := by
  induction m with
  | nil => simp [dictGet?]
  | cons p rest ih =>
    by_cases h : p.1 = k
    · simp [dictGet?, h]
    · simp [dictGet?, h, ih, Ne.symm h]

/-- After deleting a key from a map with distinct keys, the key is gone. -/
theorem not_mem_keys_dictDel {α : Type} {m : List (String × α)} {k : String}
    (hnd : (m.map Prod.fst).Nodup) : k ∉ (dictDel m k).map Prod.fst := by
  induction m with
  | nil => simp [dictDel]
  | cons p rest ih =>
    by_cases h : p.1 = k
    · subst h
      simpa [dictDel] using (List.nodup_cons.mp hnd).1
    · have hnd' : (rest.map Prod.fst).Nodup := (List.nodup_cons.mp hnd).2
      simp only [dictDel, if_neg h, List.map_cons, List.mem_cons]
      exact fun hc => hc.elim (fun he => h he.symm) (ih hnd')

/-- The step `process_component` preserves store well-formedness. -/
theorem storeWF_process_component (cfg : AlertConfig) (st : AlertStore)
    (c : String) (p : ℚ) (t : ℤ) (hwf : StoreWF st) :
    StoreWF (process_component cfg st c p t) := by
  obtain ⟨hnd, hmem⟩ := hwf
  unfold process_component
  cases hdet : determine_alert_level cfg.alert_thresholds p with
  | some lv =>
    refine ⟨?_, ?_⟩
    · rw [dictSet_map_fst]
      split_ifs with hk
      · exact hnd
      · simp [List.nodup_append, hnd, hk]
    · intro q hq
      rcases mem_dictSet hq with rfl | hq'
      · refine ⟨by simp, ?_⟩
        simp [List.getD_eq_getElem?_getD, List.getElem?_concat_length]
      · obtain ⟨hlt, hcomp⟩ := hmem q hq'
        refine ⟨by simp; omega, ?_⟩
        rw [List.getD_eq_getElem?_getD, List.getElem?_append_left hlt]
        rw [List.getD_eq_getElem?_getD] at hcomp
        exact hcomp
  | none =>
    by_cases hs : (dictGet? st.current_alerts c).isSome
    · simp only [if_pos hs]
      exact ⟨(dictDel_map_fst_sublist _ _).nodup hnd,
        fun q hq => hmem q (mem_dictDel hq)⟩
    · simp only [if_neg hs]
      exact ⟨hnd, hmem⟩

/-- C8: processing telemetry preserves the store invariant — in particular
each component keeps at most one current alert — and an evaluation whose
probability is below the low threshold (with thresholds ordered
low ≤ medium ≤ high) removes the component's current alert, so the
component is absent from the next `get_current_alerts` result. -/
theorem claim_C8_unique_current_and_recovery :
    (∀ (cfg : AlertConfig) (st : AlertStore) (preds : List (String × ℚ))
        (t : ℤ), StoreWF st → StoreWF (process_telemetry_data cfg st preds t)) ∧
    (∀ (cfg : AlertConfig) (st : AlertStore) (c : String) (p : ℚ) (t : ℤ),
      StoreWF st →
      cfg.alert_thresholds.low ≤ cfg.alert_thresholds.medium →
      cfg.alert_thresholds.medium ≤ cfg.alert_thresholds.high →
      p < cfg.alert_thresholds.low →
      c ∉ (get_current_alerts (process_component cfg st c p t)).map
        (fun a => a.component)) := by
  constructor
  · intro cfg st preds t hwf
    induction preds generalizing st with
    | nil => exact hwf
    | cons q rest ih =>
      exact ih _ (storeWF_process_component cfg st q.1 q.2 t hwf)
  · intro cfg st c p t hwf hlm hmh hp
    have hdet : determine_alert_level cfg.alert_thresholds p = none := by
      unfold determine_alert_level
      have h1 : ¬p ≥ cfg.alert_thresholds.high := by linarith
      have h2 : ¬p ≥ cfg.alert_thresholds.medium := by linarith
      have h3 : ¬p ≥ cfg.alert_thresholds.low := by linarith
      simp [h1, h2, h3]
    have hwf' := storeWF_process_component cfg st c p t hwf
    have hkeys : c ∉ ((process_component cfg st c p t).current_alerts.map
        Prod.fst) := by
      unfold process_component at *
      rw [hdet] at *
      by_cases hs : (dictGet? st.current_alerts c).isSome
      · simp only [if_pos hs] at *
        exact not_mem_keys_dictDel hwf.1
      · simp only [if_neg hs] at *
        have : dictGet? st.current_alerts c = none :=
          Option.not_isSome_iff_eq_none.mp hs
        exact (dictGet?_eq_none _ _).mp this
    intro hc
    rcases List.mem_map.mp hc with ⟨a, ha, hac⟩
    have ha' : a ∈ currentAlertValues (process_component cfg st c p t) := by
      simpa [get_current_alerts, rank, List.mem_mergeSort] using ha
    rcases List.mem_map.mp ha' with ⟨q, hq, rfl⟩
    have hcomp := (hwf'.2 q hq).2
    have hq1 : q.1 ∈ (process_component cfg st c p t).current_alerts.map
        Prod.fst := List.mem_map_of_mem Prod.fst hq
    rw [hcomp] at hac
    exact hkeys (hac ▸ hq1)

/-- Witness for C8: starting from the empty store, process an engine alert
(probability 1) and then a brakes evaluation with probability 0; the
invariant is preserved and `brakes` is absent from the current alerts. -/
theorem claim_C8_unique_current_and_recovery_witness :
    (StoreWF emptyAlertStore ∧
      StoreWF (process_telemetry_data defaultAlertConfig emptyAlertStore
        [("engine", 1)] 0)) ∧
    (defaultAlertConfig.alert_thresholds.low ≤
        defaultAlertConfig.alert_thresholds.medium ∧
      defaultAlertConfig.alert_thresholds.medium ≤
        defaultAlertConfig.alert_thresholds.high ∧
      (0 : ℚ) < defaultAlertConfig.alert_thresholds.low ∧
      "brakes" ∉ (get_current_alerts
          (process_component defaultAlertConfig
            (process_telemetry_data defaultAlertConfig emptyAlertStore
              [("engine", 1)] 0)
            "brakes" 0 0)).map (fun a => a.component)) := by
  have hwf0 : StoreWF emptyAlertStore := by
    constructor <;> simp [emptyAlertStore]
  have hwf1 := claim_C8_unique_current_and_recovery.1 defaultAlertConfig
    emptyAlertStore [("engine", 1)] 0 hwf0
  exact ⟨⟨hwf0, hwf1⟩, by decide, by decide, by decide,
    claim_C8_unique_current_and_recovery.2 defaultAlertConfig _ "brakes" 0 0
      hwf1 (by decide) (by decide) (by decide)⟩

/-- The ranking key order is transitive. -/
theorem rankLE_trans (a b c : VAlert) (hab : rankLE a b = true)
    (hbc : rankLE b c = true) : rankLE a c = true := by
  simp only [rankLE, decide_eq_true_eq] at *
  rcases hab with h1 | ⟨h1, h2⟩ <;> rcases hbc with h3 | ⟨h3, h4⟩
  · exact Or.inl (by linarith)
  · exact Or.inl (by omega)
  · exact Or.inl (by omega)
  · exact Or.inr ⟨by omega, by linarith⟩

/-- The ranking key order is total. -/
theorem rankLE_total (a b : VAlert) : rankLE a b || rankLE b a := by
  simp only [rankLE, Bool.or_eq_true, decide_eq_true_eq]
  rcases lt_trichotomy a.priority b.priority with h | h | h
  · exact Or.inr (Or.inl h)
  · rcases le_total b.probability a.probability with hp | hp
    · exact Or.inl (Or.inr ⟨h, hp⟩)
    · exact Or.inr (Or.inr ⟨h.symm, hp⟩)
  · exact Or.inl (Or.inl h)

unseal List.merge List.mergeSort in
/-- C9: `rank` permutes its input into an order that is sorted by
descending priority with ties broken by descending probability, and is
stable on exact ties (a pair with equal priority and probability keeps its
original relative order); on the spec's example
`[(engine,5,0.6), (brakes,5,0.8), (battery,2,0.9)]` the result order is
brakes, engine, battery. -/
theorem claim_C9_rank_total_order_stable :
    (∀ l : List VAlert, List.Perm (rank l) l) ∧
    (∀ l : List VAlert,
      List.Pairwise
        (fun a b => b.priority < a.priority ∨
          (a.priority = b.priority ∧ b.probability ≤ a.probability))
        (rank l)) ∧
    (∀ (a b : VAlert) (l : List VAlert),
      a.priority = b.priority → a.probability = b.probability →
      List.Sublist [a, b] l → List.Sublist [a, b] (rank l)) ∧
    rank [engineExampleAlert, brakesExampleAlert, batteryExampleAlert] =
      [brakesExampleAlert, engineExampleAlert, batteryExampleAlert] := by
  refine ⟨fun l => List.mergeSort_perm l rankLE, fun l => ?_,
    fun a b l hpr hprob hsub => ?_, by rfl⟩
  · have hs := List.sorted_mergeSort
      (fun a b c hab hbc => rankLE_trans a b c hab hbc)
      (fun a b => rankLE_total a b) l
    exact hs.imp (fun h => by simpa [rankLE, decide_eq_true_eq] using h)
  · refine List.pair_sublist_mergeSort
      (fun a b c hab hbc => rankLE_trans a b c hab hbc)
      (fun a b => rankLE_total a b) ?_ hsub
    simp [rankLE, hpr, hprob]

/-- Witness for C9 stability at a concrete input: two alerts with
identical ranking keys keep their original order. -/
theorem claim_C9_rank_total_order_stable_witness :
    engineExampleAlert.priority = engineTwinAlert.priority ∧
    engineExampleAlert.probability = engineTwinAlert.probability ∧
    List.Sublist [engineExampleAlert, engineTwinAlert]
      [engineExampleAlert, engineTwinAlert] ∧
    List.Sublist [engineExampleAlert, engineTwinAlert]
      (rank [engineExampleAlert, engineTwinAlert]) :=
  ⟨rfl, rfl, List.Sublist.refl _,
    claim_C9_rank_total_order_stable.2.2.1 engineExampleAlert engineTwinAlert
      [engineExampleAlert, engineTwinAlert] rfl rfl (List.Sublist.refl _)⟩
